import Mathlib

/-!
Shallow embedding of the tk-framework-simple repository:
  * src/python/utils.py                 — `is_deprecated`
  * src/hooks/filter_out_deprecated.py  — `FilterPublishes.execute`
  * src/hooks/maya/loader_actions_abc.py — `MayaActions.generate_actions`,
    `MayaActions.execute_action` and its helper methods.

Modelling conventions:
  * A Shotgun "Published File" entity dictionary is modelled by the
    `PublishedFile` structure.  The Python code reads only the keys
    `sg_status_list` (via `dict.get`, so possibly absent — an `Option`),
    `published_file_type["name"]` and `id`; those are the fields kept.
  * Host-application calls (Maya `cmds`/`mel`), the Qt modal dialog and the
    Shotgun `find_one` queries are side effects; a computation is embedded as
    a trace of `Effect`s paired with an optional uncaught Python exception
    message (`Res`).  The environment `Env` supplies the externally
    determined data: which button the user clicks in the modal dialog, which
    files exist on disk, the resolved publish path, the Shotgun children
    tables, and the node name Maya assigns in `cmds.shadingNode`.
  * `log_debug` calls and the purely cosmetic dialog texts are not modelled;
    the dialog effect records the action name and the default button, which
    the source sets to Cancel.
  * The body of `_hookup_shaders` is abstracted as the single host effect
    `Effect.hookupShaders`; no claim looks inside it.
-/

/-- A Shotgun entity dictionary for a Published File entity, restricted to
the keys this repository reads.  `sg_status_list := none` models a
dictionary in which the key is absent (Python `dict.get` returns `None`). -/
structure PublishedFile where
  id : Nat
  sg_status_list : Option String
  published_file_type_name : String
deriving DecidableEq, Repr

/-- src/python/utils.py, `is_deprecated`:
the published file dictionary is looked up with `dict.get` under the key
sg_status_list and compared for equality with the sentinel string dprctd.
In Python `None == "dprctd"` is `False`, so an absent key yields `false`. -/
def is_deprecated (published_file : PublishedFile) : Bool :=
  published_file.sg_status_list == some "dprctd"

/-- One entry of the `publishes` list handed to the filter hook: a wrapper
dictionary of the form `{"sg_publish": {…Published File entity…}}`. -/
structure PublishItem where
  sg_publish : PublishedFile
deriving DecidableEq, Repr

/-- src/hooks/filter_out_deprecated.py, `FilterPublishes.execute`.
`show_deprecated` is the value `settings_manager.retrieve("show_deprecated_files", False)`
returned by the external settings store.  The source runs
`if not show_deprecated: publishes = [p for p in publishes if not is_deprecated(p["sg_publish"])]`
and returns `publishes`. -/
def FilterPublishes.execute (publishes : List PublishItem)
    (show_deprecated : Bool) : List PublishItem :=
  if !show_deprecated then
    publishes.filter fun publish => !is_deprecated publish.sg_publish
  else
    publishes

/-- An action descriptor dictionary `{name, params, caption, description}`
returned by `generate_actions`.  `params` is always `None` in this hook. -/
structure ActionInstance where
  name : String
  params : Option String
  caption : String
  description : String
deriving DecidableEq, Repr

/-- The `reference` descriptor appended at loader_actions_abc.py lines 81-84. -/
def referenceAction : ActionInstance :=
  { name := "reference"
    params := none
    caption := "Create Reference"
    description := "This will add the item to the scene as a standard reference." }

/-- The `import` descriptor appended at loader_actions_abc.py lines 87-90. -/
def importAction : ActionInstance :=
  { name := "import"
    params := none
    caption := "Import into Scene"
    description := "This will import the item into the current scene." }

/-- The `texture_node` descriptor appended at loader_actions_abc.py lines 93-96. -/
def textureNodeAction : ActionInstance :=
  { name := "texture_node"
    params := none
    caption := "Create Texture Node"
    description := "Creates a file texture node for the selected item.." }

/-- The `udim_texture_node` descriptor appended at loader_actions_abc.py
lines 102-105. -/
def udimTextureNodeAction : ActionInstance :=
  { name := "udim_texture_node"
    params := none
    caption := "Create Texture Node"
    description := "Creates a file texture node for the selected item.." }

/-- Python `str.split(sep)` for a single-character separator: splits at every
occurrence, keeping empty pieces, and yields `[""]` on the empty string. -/
def pySplit (sep : Char) : List Char → List (List Char)
  | [] => [[]]
  | c :: rest =>
    match pySplit sep rest with
    | [] => [[c]]
    | piece :: pieces =>
      if c = sep then [] :: piece :: pieces else (c :: piece) :: pieces

/-- Python `str.lower()`; ASCII, which covers the strings this code
compares (`published_file_type["name"].lower() == "group"`). -/
def pyLower (s : List Char) : List Char :=
  s.map Char.toLower

/-- Python `int(s)` on a string of decimal digits. -/
def pyInt (digits : List Char) : Nat :=
  digits.foldl (fun n c => 10 * n + (c.toNat - 48)) 0

/-- loader_actions_abc.py, `MayaActions._get_maya_version`, as a function of
the string returned by `cmds.about(version=True)` (the source memoizes the
result per instance; the computation itself is pure).
Python: strip a leading `"Maya "`, take `split(" ")[0].split(".")[0]`, and
convert to `int` when the remainder is a nonempty digit string
(`if s and s.isdigit()`), else 0. -/
def _get_maya_version (maya_version_string : String) : Nat :=
  let maya_ver :=
    if ("Maya ".data).isPrefixOf maya_version_string.data then
      maya_version_string.data.drop 5
    else
      maya_version_string.data
  let major_version_number_str :=
    (pySplit '.' ((pySplit ' ' maya_ver).headD [])).headD []
  if (!major_version_number_str.isEmpty)
      && major_version_number_str.all Char.isDigit then
    pyInt major_version_number_str
  else
    0

/-- loader_actions_abc.py, `MayaActions.generate_actions`.
`disable_deprecated_files_actions` is the app setting
`app.get_setting("disable_deprecated_files_actions", False)`;
`maya_version_string` is the host version string consumed by
`_get_maya_version`; `ui_area` is received but only logged. -/
def generate_actions (sg_publish_data : PublishedFile) (actions : List String)
    (_ui_area : String) (disable_deprecated_files_actions : Bool)
    (maya_version_string : String) : List ActionInstance :=
  let action_instances : List ActionInstance := []
  let deprecated_actions_disabled := disable_deprecated_files_actions
  let actions_disabled :=
    deprecated_actions_disabled && is_deprecated sg_publish_data
  let action_instances :=
    if actions.contains "reference" && !actions_disabled then
      action_instances ++ [referenceAction]
    else action_instances
  let action_instances :=
    if actions.contains "import" && !actions_disabled then
      action_instances ++ [importAction]
    else action_instances
  let action_instances :=
    if actions.contains "texture_node" then
      action_instances ++ [textureNodeAction]
    else action_instances
  let action_instances :=
    if actions.contains "udim_texture_node" then
      if 2015 ≤ _get_maya_version maya_version_string then
        action_instances ++ [udimTextureNodeAction]
      else action_instances
    else action_instances
  action_instances

/-- The two buttons installed on the confirmation dialog:
`accept` is the button added with `addButton(action_name.capitalize(), YesRole)`,
`cancel` is `QMessageBox.Cancel`. -/
inductive Button where
  | accept
  | cancel
deriving DecidableEq, Repr

/-- One observable side effect of `MayaActions.execute_action`, in program
order.  Shotgun queries, the modal dialog and every Maya/MEL call are
recorded; `resolvePath` stands for the `self.get_publish_path(sg_publish_data)`
framework call on the record with the given id. -/
inductive Effect where
  | sgFindChildren (entityId : Nat)
  | sgFindOne (entityId : Nat)
  | resolvePath (entityId : Nat)
  | showDialog (actionName : String) (defaultButton : Button)
  | cmdsFileReference (path : String)
  | cmdsReferenceQuery (path : String)
  | hookupShaders
  | cmdsFileImport (path : String)
  | cmdsShadingNodeFile
  | cmdsSetAttrFileTextureName (node : String) (path : String)
  | cmdsSetAttrUvTilingMode (node : String)
  | melGenerateUvTilePreview (node : String)
deriving DecidableEq, Repr

/-- Whether an effect is the opening of the modal confirmation dialog. -/
def Effect.isDialog : Effect → Bool
  | .showDialog _ _ => true
  | _ => false

/-- Effects that touch host-application state (Maya commands and MEL);
Shotgun queries, path resolution and the modal dialog are not host commands. -/
def Effect.isHostCommand : Effect → Bool
  | .sgFindChildren _ => false
  | .sgFindOne _ => false
  | .resolvePath _ => false
  | .showDialog _ _ => false
  | _ => true

/-- External collaborators of `execute_action`, fixed for one call:
the button the user clicks if the confirmation dialog opens
(`box.clickedButton()`), `os.path.exists`, the framework path resolution,
the Shotgun children table (ids listed in the `sg_children` field of the
record fetched for a given id), the Shotgun record expansion by id, and the
node name Maya returns from `cmds.shadingNode("file", asTexture=True)`. -/
structure Env where
  clickedButton : Button
  fileExists : String → Bool
  getPublishPath : PublishedFile → String
  sgChildren : Nat → List Nat
  sgExpand : Nat → PublishedFile
  shadingNodeResult : String

/-- Result of running a hook method: the ordered trace of effects it
performed, and `some msg` when it ended in an uncaught Python exception. -/
abbrev Res := List Effect × Option String

/-- Sequencing: run `r`; if it raised, propagate the exception without
running `k`, otherwise run `k` after it. -/
def andThen (r : Res) (k : Unit → Res) : Res :=
  match r with
  | (es, some msg) => (es, some msg)
  | (es, none) =>
    let r2 := k ()
    (es ++ r2.1, r2.2)

/-- Marker for running the model out of recursion fuel; no claim depends on
this branch (every theorem takes a successor fuel). -/
def fuelExhausted : String :=
  "model: recursion fuel exhausted"

/-- The message of the Exception raised for a missing file: the resolved
path within single quotes. -/
def fileNotFoundMsg (path : String) : String :=
  "File not found on disk - " ++ String.singleton (Char.ofNat 39) ++ path
    ++ String.singleton (Char.ofNat 39)

/-- loader_actions_abc.py, `MayaActions._confirm_action_on_deprecated`:
opens the modal dialog (accept button captioned with the action name,
default button Cancel) and returns `box.clickedButton() == accept`. -/
def _confirm_action_on_deprecated (env : Env) (action_name : String) :
    List Effect × Bool :=
  ([Effect.showDialog action_name Button.cancel],
    env.clickedButton == Button.accept)

/-- loader_actions_abc.py, `MayaActions._create_reference`:
raises when the file is missing, else `cmds.file(path, reference=True, …)`,
`cmds.referenceQuery(path, referenceNode=True)` and `_hookup_shaders`. -/
def _create_reference (env : Env) (path : String) : Res :=
  if !env.fileExists path then
    ([], some (fileNotFoundMsg path))
  else
    ([Effect.cmdsFileReference path, Effect.cmdsReferenceQuery path,
      Effect.hookupShaders], none)

/-- loader_actions_abc.py, `MayaActions._do_import`:
raises when the file is missing, else `cmds.file(path, i=True, …)`. -/
def _do_import (env : Env) (path : String) : Res :=
  if !env.fileExists path then
    ([], some (fileNotFoundMsg path))
  else
    ([Effect.cmdsFileImport path], none)

/-- loader_actions_abc.py, `MayaActions._create_texture_node`:
`cmds.shadingNode("file", asTexture=True)` then
`cmds.setAttr("%s.fileTextureName" % file_node, path, type="string")`;
returns the new file node. -/
def _create_texture_node (env : Env) (path : String) : List Effect × String :=
  let file_node := env.shadingNodeResult
  ([Effect.cmdsShadingNodeFile,
    Effect.cmdsSetAttrFileTextureName file_node path], file_node)

/-- loader_actions_abc.py, `MayaActions._create_udim_texture_node`:
creates the normal file node, and `if file_node:` (string truthiness) sets
`uvTilingMode` to 3 and runs `generateUvTilePreview`. -/
def _create_udim_texture_node (env : Env) (path : String) :
    List Effect × String :=
  let r := _create_texture_node env path
  let file_node := r.2
  if file_node != "" then
    (r.1 ++ [Effect.cmdsSetAttrUvTilingMode file_node,
      Effect.melGenerateUvTilePreview file_node], file_node)
  else
    (r.1, file_node)

/-- The Python idiom
`if not is_deprecated(sg_publish_data) or self._confirm_action_on_deprecated(name): body`
with short-circuit `or`: no dialog when the record is not deprecated;
otherwise the dialog opens and `body` runs only on the accept button. -/
def deprecationGate (env : Env) (sg_publish_data : PublishedFile)
    (action_name : String) (body : Res) : Res :=
  if !is_deprecated sg_publish_data then
    body
  else
    let c := _confirm_action_on_deprecated env action_name
    if c.2 then andThen (c.1, none) (fun _ => body) else (c.1, none)

/-- The `for child in child_data["sg_children"]` loop of `execute_action`:
for each child id, `find_one` fetches the expanded record (with the field
list of the parent) and `exec` re-runs the action on it; an exception aborts the
remaining iterations. -/
def run_children (env : Env) (exec : PublishedFile → Res) :
    List Nat → Res
  | [] => ([], none)
  | childId :: rest =>
    andThen ([Effect.sgFindOne childId], none) fun _ =>
      andThen (exec (env.sgExpand childId)) fun _ =>
        run_children env exec rest

/-- loader_actions_abc.py, `MayaActions.execute_action`.
A record whose `published_file_type["name"].lower()` is `"group"` is
expanded: `find_one` fetches its `sg_children` and the action recurses on
each expanded child with the same `name` and `params`.  Otherwise the
publish path is resolved and the four `if name == …` branches run in
order (at most one matches).  `fuel` bounds the recursion depth of the
model; the source recursion is unbounded. -/
def execute_action (env : Env) :
    Nat → String → Option String → PublishedFile → Res
  | 0, _, _, _ => ([], some fuelExhausted)
  | fuel + 1, name, params, sg_publish_data =>
    if pyLower sg_publish_data.published_file_type_name.data = "group".data then
      andThen ([Effect.sgFindChildren sg_publish_data.id], none) fun _ =>
        run_children env (execute_action env fuel name params)
          (env.sgChildren sg_publish_data.id)
    else
      let path := env.getPublishPath sg_publish_data
      andThen ([Effect.resolvePath sg_publish_data.id], none) fun _ =>
      andThen
        (if name = "reference" then
          deprecationGate env sg_publish_data "reference"
            (_create_reference env path)
        else ([], none)) fun _ =>
      andThen
        (if name = "import" then
          deprecationGate env sg_publish_data "import"
            (_do_import env path)
        else ([], none)) fun _ =>
      andThen
        (if name = "texture_node" then
          ((_create_texture_node env path).1, none)
        else ([], none)) fun _ =>
      (if name = "udim_texture_node" then
        ((_create_udim_texture_node env path).1, none)
      else ([], none))

example : is_deprecated ⟨1, some "dprctd", "Texture"⟩ = true := by decide
example : is_deprecated ⟨1, some "ip", "Texture"⟩ = false := by decide
example : is_deprecated ⟨1, none, "Texture"⟩ = false := by decide
example : _get_maya_version "Maya 2014 x64" = 2014 := by decide
example : _get_maya_version "2016.5 Extension" = 2016 := by decide
example : _get_maya_version "banana" = 0 := by decide
example :
    generate_actions ⟨1, some "dprctd", "Texture"⟩ ["texture_node"] "main" true "2016" =
      [textureNodeAction] := by decide

/-- Concrete deprecated texture publish, used by witnesses. -/
def depTexRecord : PublishedFile :=
  { id := 1, sg_status_list := some "dprctd", published_file_type_name := "Texture" }

/-- Concrete non-deprecated publish (status "ip"), used by witnesses. -/
def activeRecord : PublishedFile :=
  { id := 2, sg_status_list := some "ip", published_file_type_name := "Alembic Cache" }

/-- Concrete group publish (type name "Group", lowercasing to "group"). -/
def groupRecord : PublishedFile :=
  { id := 3, sg_status_list := some "ip", published_file_type_name := "Group" }

/-- Concrete environment: the user clicks the accept button, no file exists
on disk, and record 3 is a group with children 1 and 2. -/
def envAccept : Env :=
  { clickedButton := Button.accept
    fileExists := fun _ => false
    getPublishPath := fun sg_publish_data => "/publishes/" ++ toString sg_publish_data.id
    sgChildren := fun entityId => if entityId = 3 then [1, 2] else []
    sgExpand := fun entityId => if entityId = 1 then depTexRecord else activeRecord
    shadingNodeResult := "file1" }

/-- Concrete environment: the user clicks Cancel and every path exists. -/
def envCancel : Env :=
  { clickedButton := Button.cancel
    fileExists := fun _ => true
    getPublishPath := fun sg_publish_data => "/publishes/" ++ toString sg_publish_data.id
    sgChildren := fun _ => []
    sgExpand := fun _ => activeRecord
    shadingNodeResult := "file1" }

example :
    execute_action envAccept 1 "reference" none depTexRecord =
      ([Effect.resolvePath 1, Effect.showDialog "reference" Button.cancel],
        some (fileNotFoundMsg "/publishes/1")) := by decide

example :
    execute_action envCancel 1 "reference" none depTexRecord =
      ([Effect.resolvePath 1, Effect.showDialog "reference" Button.cancel], none) := by
  decide

example :
    execute_action envCancel 1 "import" none activeRecord =
      ([Effect.resolvePath 2, Effect.cmdsFileImport "/publishes/2"], none) := by decide

example :
    execute_action envAccept 1 "texture_node" none depTexRecord =
      ([Effect.resolvePath 1, Effect.cmdsShadingNodeFile,
        Effect.cmdsSetAttrFileTextureName "file1" "/publishes/1"], none) := by decide

example :
    execute_action envAccept 1 "udim_texture_node" none depTexRecord =
      ([Effect.resolvePath 1, Effect.cmdsShadingNodeFile,
        Effect.cmdsSetAttrFileTextureName "file1" "/publishes/1",
        Effect.cmdsSetAttrUvTilingMode "file1",
        Effect.melGenerateUvTilePreview "file1"], none) := by decide

example :
    execute_action envAccept 2 "reference" none groupRecord =
      ([Effect.sgFindChildren 3, Effect.sgFindOne 1, Effect.resolvePath 1,
        Effect.showDialog "reference" Button.cancel],
        some (fileNotFoundMsg "/publishes/1")) := by decide

/-- A second deprecated record sharing the status of `depTexRecord` but nothing
else, exercising that `is_deprecated` reads only the status field. -/
def depOtherRecord : PublishedFile :=
  { id := 9, sg_status_list := some "dprctd", published_file_type_name := "Group" }

/-- Closed form of `generate_actions`: reference and import are gated by the
request and by `disable_deprecated_files_actions && is_deprecated`;
texture_node only by the request; udim_texture_node by the request and the
Maya version. -/
theorem generate_actions_closed_form (sg_publish_data : PublishedFile)
    (actions : List String) (ui_area : String)
    (disable_deprecated_files_actions : Bool) (maya_version_string : String) :
    generate_actions sg_publish_data actions ui_area
        disable_deprecated_files_actions maya_version_string =
      (if actions.contains "reference"
          && !(disable_deprecated_files_actions && is_deprecated sg_publish_data) then
        [referenceAction] else [])
      ++ (if actions.contains "import"
          && !(disable_deprecated_files_actions && is_deprecated sg_publish_data) then
        [importAction] else [])
      ++ (if actions.contains "texture_node" then [textureNodeAction] else [])
      ++ (if actions.contains "udim_texture_node" then
            (if 2015 ≤ _get_maya_version maya_version_string then
              [udimTextureNodeAction] else [])
          else []) := by
  simp only [generate_actions]
  split_ifs <;> simp_all

/-- C1: `is_deprecated R` is true iff the `sg_status_list` field of R is present
and equals the sentinel string "dprctd" exactly; any other value, or an
absent field (`none`), yields false.  The Lean function is total and pure,
mirroring that the Python call raises no error and has no side effects. -/
theorem is_deprecated_correct (R : PublishedFile) :
    is_deprecated R = true ↔ R.sg_status_list = some "dprctd" := by
  simp [is_deprecated]

/-- C2: with `show_deprecated_files` true the filter hook returns its input
unchanged; with it false the hook returns exactly the entries whose nested
record is not deprecated, in their original order. -/
theorem filter_publishes_correct (L : List PublishItem) :
    FilterPublishes.execute L true = L ∧
      FilterPublishes.execute L false =
        L.filter (fun r => !is_deprecated r.sg_publish) := by
  constructor <;> rfl

/-- C3 counterexample: with `disable_deprecated_files_actions` on and a
deprecated record, the requested recognized action `texture_node` still
yields its descriptor, so it is false that no recognized action descriptor
is produced for a deprecated record under the disable setting. -/
theorem generate_actions_deprecated_texture_node_not_suppressed :
    generate_actions depTexRecord ["texture_node"] "main" true "2016" =
      [textureNodeAction] := by decide

/-- C3 amended: only the reference and import descriptors are suppressed by
the deprecation-disable setting combined with the deprecation predicate;
a requested texture_node descriptor is always appended, and a requested
udim_texture_node descriptor is gated only by the Maya version, both
regardless of deprecation. -/
theorem generate_actions_gating (sg_publish_data : PublishedFile)
    (actions : List String) (ui_area : String)
    (disable_deprecated_files_actions : Bool) (maya_version_string : String) :
    generate_actions sg_publish_data actions ui_area
        disable_deprecated_files_actions maya_version_string =
      (if actions.contains "reference"
          && !(disable_deprecated_files_actions && is_deprecated sg_publish_data) then
        [referenceAction] else [])
      ++ (if actions.contains "import"
          && !(disable_deprecated_files_actions && is_deprecated sg_publish_data) then
        [importAction] else [])
      ++ (if actions.contains "texture_node" then [textureNodeAction] else [])
      ++ (if actions.contains "udim_texture_node" then
            (if 2015 ≤ _get_maya_version maya_version_string then
              [udimTextureNodeAction] else [])
          else []) := by
  simp only [generate_actions]
  split_ifs <;> simp_all

/-- C7: for a non-deprecated record and requested actions
["reference", "texture_node"], `generate_actions` returns exactly two
descriptors, the first named "reference" and the second "texture_node". -/
theorem generate_actions_reference_texture_node (sg_publish_data : PublishedFile)
    (ui_area : String) (disable_deprecated_files_actions : Bool)
    (maya_version_string : String)
    (h : is_deprecated sg_publish_data = false) :
    (generate_actions sg_publish_data ["reference", "texture_node"] ui_area
        disable_deprecated_files_actions maya_version_string).map
      ActionInstance.name = ["reference", "texture_node"] := by
  rw [generate_actions_closed_form]
  simp [h, referenceAction, textureNodeAction]

/-- Witness for C7 at a concrete non-deprecated record. -/
theorem generate_actions_reference_texture_node_witness :
    (generate_actions activeRecord ["reference", "texture_node"] "main"
        true "Maya 2014").map ActionInstance.name =
      ["reference", "texture_node"] :=
  generate_actions_reference_texture_node activeRecord "main" true "Maya 2014"
    (by decide)

/-- C8: whenever "udim_texture_node" is requested, its descriptor appears in
the output iff `_get_maya_version` reports major version at least 2015; in
particular an unparsable version string (version 0) suppresses it. -/
theorem generate_actions_udim_version_gate (sg_publish_data : PublishedFile)
    (actions : List String) (ui_area : String)
    (disable_deprecated_files_actions : Bool) (maya_version_string : String)
    (h : actions.contains "udim_texture_node" = true) :
    (∃ a ∈ generate_actions sg_publish_data actions ui_area
        disable_deprecated_files_actions maya_version_string,
      a.name = "udim_texture_node") ↔
      2015 ≤ _get_maya_version maya_version_string := by
  rw [generate_actions_closed_form]
  split_ifs with h1 h2 h3 h4 <;>
    simp_all [referenceAction, importAction, textureNodeAction,
      udimTextureNodeAction]

/-- Witness for C8: Maya 2016 admits the UDIM descriptor. -/
theorem generate_actions_udim_version_gate_witness :
    ∃ a ∈ generate_actions depTexRecord ["udim_texture_node"] "main"
        true "Maya 2016",
      a.name = "udim_texture_node" :=
  (generate_actions_udim_version_gate depTexRecord ["udim_texture_node"]
    "main" true "Maya 2016" (by decide)).mpr (by decide)

/-- C9: the filter hook returns a sublist of its input (the very same
wrapper objects, in order, nothing altered), and `is_deprecated` depends
only on the status field, so neither mutates any record. -/
theorem filter_and_predicate_no_mutation (L : List PublishItem) (P : Bool)
    (a b : PublishedFile) (h : a.sg_status_list = b.sg_status_list) :
    (FilterPublishes.execute L P).Sublist L ∧
      is_deprecated a = is_deprecated b := by
  refine ⟨?_, by simp [is_deprecated, h]⟩
  cases P
  · exact List.filter_sublist L
  · exact List.Sublist.refl L

/-- Witness for C9 on a concrete list and two records sharing a status. -/
theorem filter_and_predicate_no_mutation_witness :
    (FilterPublishes.execute [⟨activeRecord⟩, ⟨depTexRecord⟩] false).Sublist
        [⟨activeRecord⟩, ⟨depTexRecord⟩] ∧
      is_deprecated depTexRecord = is_deprecated depOtherRecord :=
  filter_and_predicate_no_mutation [⟨activeRecord⟩, ⟨depTexRecord⟩] false
    depTexRecord depOtherRecord rfl

theorem andThen_nil_ok (k : Unit → Res) : andThen ([], none) k = k () := by
  simp [andThen]

theorem andThen_skip (r : Res) : andThen r (fun _ => ([], none)) = r := by
  obtain ⟨es, err⟩ := r
  cases err <;> simp [andThen]

/-- On a deprecated record the gate opens the dialog and runs the body only
on the accept button. -/
theorem deprecationGate_deprecated (env : Env) (sg_publish_data : PublishedFile)
    (action_name : String) (body : Res)
    (h : is_deprecated sg_publish_data = true) :
    deprecationGate env sg_publish_data action_name body =
      andThen ([Effect.showDialog action_name Button.cancel], none) fun _ =>
        (if env.clickedButton = Button.accept then body else ([], none)) := by
  simp only [deprecationGate, _confirm_action_on_deprecated, h]
  cases hc : env.clickedButton <;> obtain ⟨es, err⟩ := body <;> cases err <;>
    simp [andThen, hc]

/-- On a non-deprecated record the gate runs the body with no dialog. -/
theorem deprecationGate_not_deprecated (env : Env)
    (sg_publish_data : PublishedFile) (action_name : String) (body : Res)
    (h : is_deprecated sg_publish_data = false) :
    deprecationGate env sg_publish_data action_name body = body := by
  simp [deprecationGate, h]

/-- Unfolding of `execute_action` on a non-group record. -/
theorem execute_action_nongroup (env : Env) (fuel : Nat) (name : String)
    (params : Option String) (sg_publish_data : PublishedFile)
    (hng : pyLower sg_publish_data.published_file_type_name.data ≠ "group".data) :
    execute_action env (fuel + 1) name params sg_publish_data =
      andThen ([Effect.resolvePath sg_publish_data.id], none) fun _ =>
      andThen
        (if name = "reference" then
          deprecationGate env sg_publish_data "reference"
            (_create_reference env (env.getPublishPath sg_publish_data))
        else ([], none)) fun _ =>
      andThen
        (if name = "import" then
          deprecationGate env sg_publish_data "import"
            (_do_import env (env.getPublishPath sg_publish_data))
        else ([], none)) fun _ =>
      andThen
        (if name = "texture_node" then
          ((_create_texture_node env (env.getPublishPath sg_publish_data)).1, none)
        else ([], none)) fun _ =>
      (if name = "udim_texture_node" then
        ((_create_udim_texture_node env (env.getPublishPath sg_publish_data)).1, none)
      else ([], none)) := by
  simp only [execute_action, if_neg hng]

/-- Evaluation of `execute_action` on a non-group record, name "reference". -/
theorem execute_action_reference_eq (env : Env) (fuel : Nat)
    (params : Option String) (sg_publish_data : PublishedFile)
    (hng : pyLower sg_publish_data.published_file_type_name.data ≠ "group".data) :
    execute_action env (fuel + 1) "reference" params sg_publish_data =
      andThen ([Effect.resolvePath sg_publish_data.id], none) fun _ =>
        deprecationGate env sg_publish_data "reference"
          (_create_reference env (env.getPublishPath sg_publish_data)) := by
  rw [execute_action_nongroup env fuel "reference" params sg_publish_data hng]
  simp [andThen_nil_ok, andThen_skip]

/-- Evaluation of `execute_action` on a non-group record, name "import". -/
theorem execute_action_import_eq (env : Env) (fuel : Nat)
    (params : Option String) (sg_publish_data : PublishedFile)
    (hng : pyLower sg_publish_data.published_file_type_name.data ≠ "group".data) :
    execute_action env (fuel + 1) "import" params sg_publish_data =
      andThen ([Effect.resolvePath sg_publish_data.id], none) fun _ =>
        deprecationGate env sg_publish_data "import"
          (_do_import env (env.getPublishPath sg_publish_data)) := by
  rw [execute_action_nongroup env fuel "import" params sg_publish_data hng]
  simp [andThen_nil_ok, andThen_skip]

/-- Evaluation of `execute_action` on a non-group record, name "texture_node". -/
theorem execute_action_texture_node_eq (env : Env) (fuel : Nat)
    (params : Option String) (sg_publish_data : PublishedFile)
    (hng : pyLower sg_publish_data.published_file_type_name.data ≠ "group".data) :
    execute_action env (fuel + 1) "texture_node" params sg_publish_data =
      andThen ([Effect.resolvePath sg_publish_data.id], none) fun _ =>
        ((_create_texture_node env (env.getPublishPath sg_publish_data)).1,
          none) := by
  rw [execute_action_nongroup env fuel "texture_node" params sg_publish_data hng]
  simp [andThen_nil_ok, andThen_skip]

/-- Evaluation of `execute_action` on a non-group record, name "udim_texture_node". -/
theorem execute_action_udim_texture_node_eq (env : Env) (fuel : Nat)
    (params : Option String) (sg_publish_data : PublishedFile)
    (hng : pyLower sg_publish_data.published_file_type_name.data ≠ "group".data) :
    execute_action env (fuel + 1) "udim_texture_node" params sg_publish_data =
      andThen ([Effect.resolvePath sg_publish_data.id], none) fun _ =>
        ((_create_udim_texture_node env (env.getPublishPath sg_publish_data)).1,
          none) := by
  rw [execute_action_nongroup env fuel "udim_texture_node" params
    sg_publish_data hng]
  simp [andThen_nil_ok, andThen_skip]

/-- C4: dispatching "reference" or "import" on a non-group record opens the
modal dialog (default button Cancel) first exactly when the record is
deprecated, and then runs the host-command routine iff the clicked button is
the accept button; on a non-deprecated record no dialog appears and the
routine runs unconditionally. -/
theorem execute_action_deprecation_dialog (env : Env) (fuel : Nat)
    (name : String) (params : Option String) (sg_publish_data : PublishedFile)
    (hname : name = "reference" ∨ name = "import")
    (hng : pyLower sg_publish_data.published_file_type_name.data ≠ "group".data) :
    (is_deprecated sg_publish_data = true →
      execute_action env (fuel + 1) name params sg_publish_data =
        andThen ([Effect.resolvePath sg_publish_data.id,
            Effect.showDialog name Button.cancel], none) fun _ =>
          (if env.clickedButton = Button.accept then
            (if name = "reference" then
              _create_reference env (env.getPublishPath sg_publish_data)
            else
              _do_import env (env.getPublishPath sg_publish_data))
          else ([], none))) ∧
    (is_deprecated sg_publish_data = false →
      (execute_action env (fuel + 1) name params sg_publish_data =
        andThen ([Effect.resolvePath sg_publish_data.id], none) fun _ =>
          (if name = "reference" then
            _create_reference env (env.getPublishPath sg_publish_data)
          else
            _do_import env (env.getPublishPath sg_publish_data))) ∧
      ∀ e ∈ (execute_action env (fuel + 1) name params sg_publish_data).1,
        e.isDialog = false) := by
  rcases hname with h | h <;> subst h
  · constructor
    · intro hdep
      rw [execute_action_reference_eq env fuel params _ hng,
        deprecationGate_deprecated env _ _ _ hdep]
      cases hc : env.clickedButton <;> simp [andThen, hc]
    · intro hdep
      rw [execute_action_reference_eq env fuel params _ hng,
        deprecationGate_not_deprecated env _ _ _ hdep]
      refine ⟨by simp, ?_⟩
      intro e he
      by_cases hf : env.fileExists (env.getPublishPath sg_publish_data) <;>
        simp [andThen, _create_reference, hf] at he <;>
        rcases he with rfl | rfl | rfl | rfl <;> rfl
  · constructor
    · intro hdep
      rw [execute_action_import_eq env fuel params _ hng,
        deprecationGate_deprecated env _ _ _ hdep]
      cases hc : env.clickedButton <;> simp [andThen, hc]
    · intro hdep
      rw [execute_action_import_eq env fuel params _ hng,
        deprecationGate_not_deprecated env _ _ _ hdep]
      refine ⟨by simp, ?_⟩
      intro e he
      by_cases hf : env.fileExists (env.getPublishPath sg_publish_data) <;>
        simp [andThen, _do_import, hf] at he <;>
        rcases he with rfl | rfl <;> rfl

/-- Witness for C4: deprecated record, accept clicked, so the reference
routine runs (and, the file being absent in `envAccept`, raises). -/
theorem execute_action_deprecation_dialog_witness :
    execute_action envAccept 1 "reference" none depTexRecord =
      andThen ([Effect.resolvePath depTexRecord.id,
          Effect.showDialog "reference" Button.cancel], none) fun _ =>
        (if envAccept.clickedButton = Button.accept then
          (if "reference" = "reference" then
            _create_reference envAccept (envAccept.getPublishPath depTexRecord)
          else
            _do_import envAccept (envAccept.getPublishPath depTexRecord))
        else ([], none)) :=
  (execute_action_deprecation_dialog envAccept 0 "reference" none depTexRecord
    (Or.inl rfl) (by decide)).1 (by decide)

/-- C5: when "reference" or "import" is dispatched on a non-group record and
the resolved publish path does not exist, no host command ever runs (the
exception, when raised, precedes every host call), and the fatal
file-not-found exception is raised whenever the dispatch reaches the host
routine (record not deprecated, or dialog accepted); when the path exists,
no exception is raised. -/
theorem execute_action_missing_file_fatal (env : Env) (fuel : Nat)
    (name : String) (params : Option String) (sg_publish_data : PublishedFile)
    (hname : name = "reference" ∨ name = "import")
    (hng : pyLower sg_publish_data.published_file_type_name.data ≠ "group".data) :
    (env.fileExists (env.getPublishPath sg_publish_data) = false →
      (∀ e ∈ (execute_action env (fuel + 1) name params sg_publish_data).1,
        e.isHostCommand = false) ∧
      (is_deprecated sg_publish_data = false →
        execute_action env (fuel + 1) name params sg_publish_data =
          ([Effect.resolvePath sg_publish_data.id],
            some (fileNotFoundMsg (env.getPublishPath sg_publish_data)))) ∧
      (env.clickedButton = Button.accept →
        (execute_action env (fuel + 1) name params sg_publish_data).2 =
          some (fileNotFoundMsg (env.getPublishPath sg_publish_data)))) ∧
    (env.fileExists (env.getPublishPath sg_publish_data) = true →
      (execute_action env (fuel + 1) name params sg_publish_data).2 =
        none) := by
  rcases hname with h | h <;> subst h <;>
    [rw [execute_action_reference_eq env fuel params _ hng];
      rw [execute_action_import_eq env fuel params _ hng]] <;>
    cases hdep : is_deprecated sg_publish_data <;>
    [rw [deprecationGate_not_deprecated env _ _ _ hdep];
      rw [deprecationGate_deprecated env _ _ _ hdep];
      rw [deprecationGate_not_deprecated env _ _ _ hdep];
      rw [deprecationGate_deprecated env _ _ _ hdep]] <;>
    cases hc : env.clickedButton <;>
    cases hf : env.fileExists (env.getPublishPath sg_publish_data) <;>
    simp [andThen, _create_reference, _do_import, hf, hc, Effect.isHostCommand]

/-- Witness for C5: non-deprecated record, missing file: the import action
raises the file-not-found exception with only the path resolution done. -/
theorem execute_action_missing_file_fatal_witness :
    execute_action envAccept 1 "import" none activeRecord =
      ([Effect.resolvePath activeRecord.id],
        some (fileNotFoundMsg (envAccept.getPublishPath activeRecord))) :=
  (((execute_action_missing_file_fatal envAccept 0 "import" none activeRecord
    (Or.inr rfl) (by decide)).1 (by decide)).2.1 (by decide))

/-- C10: on a non-group record the actions "texture_node" and
"udim_texture_node" run unconditionally: no exception, no confirmation
dialog (even on a deprecated record), the file node is created, and the
result does not depend on `os.path.exists` or on the dialog answer at all. -/
theorem texture_node_actions_unconditional (env : Env) (fuel : Nat)
    (name : String) (params : Option String) (sg_publish_data : PublishedFile)
    (hname : name = "texture_node" ∨ name = "udim_texture_node")
    (hng : pyLower sg_publish_data.published_file_type_name.data ≠ "group".data) :
    (execute_action env (fuel + 1) name params sg_publish_data).2 = none ∧
    (∀ e ∈ (execute_action env (fuel + 1) name params sg_publish_data).1,
      e.isDialog = false) ∧
    Effect.cmdsShadingNodeFile ∈
      (execute_action env (fuel + 1) name params sg_publish_data).1 ∧
    (∀ fe : String → Bool, ∀ cb : Button,
      execute_action { env with fileExists := fe, clickedButton := cb }
        (fuel + 1) name params sg_publish_data =
      execute_action env (fuel + 1) name params sg_publish_data) := by
  rcases hname with h | h <;> subst h
  · rw [execute_action_texture_node_eq env fuel params _ hng]
    refine ⟨by simp [andThen], ?_, ?_, ?_⟩
    · intro e he
      simp [andThen, _create_texture_node] at he
      rcases he with rfl | rfl | rfl <;> rfl
    · simp [andThen, _create_texture_node]
    · intro fe cb
      rw [execute_action_texture_node_eq
        { env with fileExists := fe, clickedButton := cb } fuel params _ hng]
      rfl
  · rw [execute_action_udim_texture_node_eq env fuel params _ hng]
    refine ⟨by simp [andThen], ?_, ?_, ?_⟩
    · intro e he
      by_cases hn : env.shadingNodeResult != "" <;>
        simp [andThen, _create_udim_texture_node, _create_texture_node, hn]
          at he <;>
        rcases he with rfl | rfl | rfl | rfl | rfl <;> rfl
    · by_cases hn : env.shadingNodeResult != "" <;>
        simp [andThen, _create_udim_texture_node, _create_texture_node, hn]
    · intro fe cb
      rw [execute_action_udim_texture_node_eq
        { env with fileExists := fe, clickedButton := cb } fuel params _ hng]
      rfl

/-- Witness for C10: a deprecated record with a missing file still gets its
texture node, with no dialog and no exception. -/
theorem texture_node_actions_unconditional_witness :
    (execute_action envAccept 1 "texture_node" none depTexRecord).2 = none ∧
    (∀ e ∈ (execute_action envAccept 1 "texture_node" none depTexRecord).1,
      e.isDialog = false) ∧
    Effect.cmdsShadingNodeFile ∈
      (execute_action envAccept 1 "texture_node" none depTexRecord).1 ∧
    (∀ fe : String → Bool, ∀ cb : Button,
      execute_action { envAccept with fileExists := fe, clickedButton := cb }
        1 "texture_node" none depTexRecord =
      execute_action envAccept 1 "texture_node" none depTexRecord) :=
  texture_node_actions_unconditional envAccept 0 "texture_node" none
    depTexRecord (Or.inl rfl) (by decide)

/-- The child loop, written as a right fold. -/
theorem run_children_eq_foldr (env : Env) (exec : PublishedFile → Res)
    (childIds : List Nat) :
    run_children env exec childIds =
      childIds.foldr
        (fun childId rest =>
          andThen ([Effect.sgFindOne childId], none) fun _ =>
            andThen (exec (env.sgExpand childId)) fun _ => rest)
        ([], none) := by
  induction childIds with
  | nil => rfl
  | cons c cs ih => simp [run_children, ih]

/-- C6: on a record whose published_file_type name lowercases to "group",
`execute_action` fetches the children from Shotgun, then for each listed
child in order fetches the expanded child record and re-invokes itself with
the same name and params on it, aborting the remainder on an exception; on
the group record itself it performs nothing else — in particular no path
resolution and no host command (with no children the whole trace is the
single children query). -/
theorem execute_action_group_expansion (env : Env) (fuel : Nat)
    (name : String) (params : Option String) (sg_publish_data : PublishedFile)
    (hg : pyLower sg_publish_data.published_file_type_name.data = "group".data) :
    (execute_action env (fuel + 1) name params sg_publish_data =
      andThen ([Effect.sgFindChildren sg_publish_data.id], none) fun _ =>
        (env.sgChildren sg_publish_data.id).foldr
          (fun childId rest =>
            andThen ([Effect.sgFindOne childId], none) fun _ =>
              andThen
                (execute_action env fuel name params (env.sgExpand childId))
                fun _ => rest)
          ([], none)) ∧
    (env.sgChildren sg_publish_data.id = [] →
      execute_action env (fuel + 1) name params sg_publish_data =
        ([Effect.sgFindChildren sg_publish_data.id], none)) := by
  have hmain : execute_action env (fuel + 1) name params sg_publish_data =
      andThen ([Effect.sgFindChildren sg_publish_data.id], none) fun _ =>
        run_children env (execute_action env fuel name params)
          (env.sgChildren sg_publish_data.id) := by
    simp only [execute_action, if_pos hg]
  refine ⟨?_, ?_⟩
  · rw [hmain, run_children_eq_foldr]
  · intro hnil
    rw [hmain, hnil]
    rfl

/-- Witness for C6: the concrete group record with children [1, 2]. -/
theorem execute_action_group_expansion_witness :
    execute_action envAccept 2 "reference" none groupRecord =
      andThen ([Effect.sgFindChildren groupRecord.id], none) fun _ =>
        (envAccept.sgChildren groupRecord.id).foldr
          (fun childId rest =>
            andThen ([Effect.sgFindOne childId], none) fun _ =>
              andThen
                (execute_action envAccept 1 "reference" none
                  (envAccept.sgExpand childId))
                fun _ => rest)
          ([], none) :=
  (execute_action_group_expansion envAccept 1 "reference" none groupRecord
    (by decide)).1
